import Mathlib

/-!
Shallow embedding of buteo's stochastic augmentation engine
(`buteo/ai/augmentation_funcs.py` and `buteo/ai/augmentation.py`).

Arrays are modelled as total functions from raw axis indices to exact
rationals (floating dtype, so the dtype-fit utility is a pure cast).
Every transform receives its random draws as explicit arguments, so
theorems quantify over all possible draws of the shared RNG stream.
Helpers living in repository modules that are not among the available
sources (`buteo.ai.augmentation_utils`, `buteo.array.convolution`) are
modelled from the specification and carry a doc comment saying so.
-/

/-- A three-axis numeric array as a total function on raw axis indices
(`channel_last`: row, col, channel; channel first: channel, row, col). -/
abbrev Img : Type := ℕ → ℕ → ℕ → ℚ

/-- A constant-valued array, used for concrete scenarios. -/
def constImg (q : ℚ) : Img := fun _ _ _ => q

/-- Modelled from the spec: `_fit_data_to_dtype` (module
`buteo.ai.augmentation_utils`, not among the sources).  For floating
storage types the utility performs "only a representational cast (no
clipping)"; arrays here are rational-valued floating arrays, so the fit
is the identity. -/
def fitToDtype (A : Img) : Img := A

/-- Python `int()` applied to a rational: truncation toward zero. -/
def pyInt (q : ℚ) : ℤ := if q < 0 then -(⌊-q⌋) else ⌊q⌋

/-- Modelled from the spec: `rotate_arr` (module
`buteo.ai.augmentation_utils`, not among the sources).  Rotates the
spatial plane by `k` quarter turns counter-clockwise, channel axis
untouched; `k` outside `{1,2,3}` is the identity.  `s0 s1 s2` is the raw
shape of the array. -/
def rotate_arr (s0 s1 s2 : ℕ) (A : Img) (k : ℕ) (channel_last : Bool) : Img :=
  if channel_last then
    if k = 1 then fun i j c => A j (s1 - 1 - i) c
    else if k = 2 then fun i j c => A (s0 - 1 - i) (s1 - 1 - j) c
    else if k = 3 then fun i j c => A (s0 - 1 - j) i c
    else A
  else
    if k = 1 then fun c i j => A c j (s2 - 1 - i)
    else if k = 2 then fun c i j => A c (s1 - 1 - i) (s2 - 1 - j)
    else if k = 3 then fun c i j => A c (s1 - 1 - j) i
    else A

/-- Modelled from the spec: `mirror_arr` (module
`buteo.ai.augmentation_utils`, not among the sources).  `k = 1` flips
along the horizontal axis, `k = 2` along the vertical axis, `k = 3`
both; anything else is the identity. -/
def mirror_arr (s0 s1 s2 : ℕ) (A : Img) (k : ℕ) (channel_last : Bool) : Img :=
  if channel_last then
    if k = 1 then fun i j c => A i (s1 - 1 - j) c
    else if k = 2 then fun i j c => A (s0 - 1 - i) j c
    else if k = 3 then fun i j c => A (s0 - 1 - i) (s1 - 1 - j) c
    else A
  else
    if k = 1 then fun c i j => A c i (s2 - 1 - j)
    else if k = 2 then fun c i j => A c (s1 - 1 - i) j
    else if k = 3 then fun c i j => A c (s1 - 1 - i) (s2 - 1 - j)
    else A

/-- Embedding of `augmentation_rotation`.  `r` is the chance-gate draw,
`rk` the value drawn by `np.random.randint(1, 4)` when `k` is `None`. -/
def augmentation_rotation (s0 s1 s2 t0 t1 t2 : ℕ) (X : Img) (y : Option Img)
    (chance : ℚ) (k : Option ℕ) (channel_last : Bool) (r : ℚ) (rk : ℕ) :
    Img × Option Img :=
  if r > chance ∨ k = some 0 then (X, y) else
  let random_k := k.getD rk
  let X_rot := rotate_arr s0 s1 s2 X random_k channel_last
  match y with
  | none => (X_rot, none)
  | some yv => (X_rot, some (rotate_arr t0 t1 t2 yv random_k channel_last))

/-- Embedding of `augmentation_mirror`. -/
def augmentation_mirror (s0 s1 s2 t0 t1 t2 : ℕ) (X : Img) (y : Option Img)
    (chance : ℚ) (k : Option ℕ) (channel_last : Bool) (r : ℚ) (rk : ℕ) :
    Img × Option Img :=
  if r > chance ∨ k = some 0 then (X, y) else
  let random_k := k.getD rk
  (mirror_arr s0 s1 s2 X random_k channel_last,
   y.map fun yv => mirror_arr t0 t1 t2 yv random_k channel_last)

/-- Embedding of `augmentation_noise`.  `r` is the chance-gate draw,
`a_draw` the unit uniform behind `np.random.rand() * max_amount`, and `z`
the array of standard normal draws (so `np.random.normal(0, amount)`
is `amount * z` and `np.random.normal(1, amount)` is `1 + amount * z`). -/
def augmentation_noise (X : Img) (y : Option Img) (chance max_amount : ℚ)
    (additive : Bool) (_channel_last : Bool) (r a_draw : ℚ) (z : Img) :
    Img × Option Img :=
  if r > chance then (X, y) else
  let amount := a_draw * max_amount
  if additive then (fitToDtype (fun i j c => X i j c + amount * z i j c), y)
  else (fitToDtype (fun i j c => X i j c * (1 + amount * z i j c)), y)

/-- Embedding of `augmentation_channel_scale`.  `uc i` is the unit
uniform behind the per-channel `np.random.uniform` draw. -/
def augmentation_channel_scale (s0 s1 s2 : ℕ) (X : Img) (y : Option Img)
    (chance max_amount : ℚ) (additive : Bool) (channel_last : Bool)
    (r a_draw : ℚ) (uc : ℕ → ℚ) : Img × Option Img :=
  if r > chance then (X, y) else
  let amount := a_draw * max_amount
  let add_amt : ℕ → ℚ := fun i => -amount + uc i * (2 * amount)
  let mul_amt : ℕ → ℚ := fun i => (1 - amount) + uc i * (2 * amount)
  let out : Img :=
    if channel_last then
      fun a b c =>
        if c < s2 then
          (if additive then X a b c + add_amt c else X a b c * mul_amt c)
        else X a b c
    else
      fun a b c =>
        if a < s0 then
          (if additive then X a b c + add_amt a else X a b c * mul_amt a)
        else X a b c
  (fitToDtype out, y)

/-- Sum of `f` over the rectangle `[0,h) × [0,w)`. -/
def sum2 (h w : ℕ) (f : ℕ → ℕ → ℚ) : ℚ :=
  ((List.range h).map fun i => ((List.range w).map fun j => f i j).sum).sum

/-- `np.mean` over the rectangle `[0,h) × [0,w)`. -/
def mean2 (h w : ℕ) (f : ℕ → ℕ → ℚ) : ℚ := sum2 h w f / ((h * w : ℕ) : ℚ)

/-- Embedding of `augmentation_contrast`.  Note: the source computes the
per-channel means with layout-aware indexing, but the application loop
writes `x_contrast[:, :, i]` for BOTH layouts; the embedding reproduces
that raw-third-axis write. -/
def augmentation_contrast (s0 s1 s2 : ℕ) (X : Img) (y : Option Img)
    (chance max_amount : ℚ) (channel_last : Bool) (r a_draw : ℚ) :
    Img × Option Img :=
  if r > chance then (X, y) else
  let amount := a_draw * max_amount
  let channels := if channel_last then s2 else s0
  let mean_pixel : ℕ → ℚ := fun i =>
    if channel_last then mean2 s0 s1 (fun a b => X a b i)
    else mean2 s1 s2 (fun a b => X i a b)
  let out : Img := fun a b c =>
    if c < channels then (X a b c - mean_pixel c) * (1 + amount) + mean_pixel c
    else X a b c
  (fitToDtype out, y)

/-- The contrast transform as the specification words it: for each
channel of the selected layout, map each pixel
`x ↦ (x - mean)·(1 + a) + mean` with that channel's own mean. -/
def specContrast (s0 s1 s2 : ℕ) (X : Img) (amount : ℚ) (channel_last : Bool) : Img :=
  if channel_last then
    fun a b c =>
      (X a b c - mean2 s0 s1 (fun i j => X i j c)) * (1 + amount)
        + mean2 s0 s1 (fun i j => X i j c)
  else
    fun a b c =>
      (X a b c - mean2 s1 s2 (fun i j => X a i j)) * (1 + amount)
        + mean2 s1 s2 (fun i j => X a i j)

/-- A channel-first 2×2×2 array: channel 0 is all zeros, channel 1 all
fours. -/
def contrastBugInput : Img := fun a _ _ => if a = 1 then 4 else 0

/-- Embedding of `augmentation_drop_pixel`.  `mask` is the array of
`np.random.random` draws; both layout branches of the source perform the
identical raw-index update, bounded by the raw shape. -/
def augmentation_drop_pixel (s0 s1 s2 : ℕ) (X : Img) (y : Option Img)
    (chance drop_probability drop_value : ℚ) (_channel_last : Bool)
    (r : ℚ) (mask : Img) : Img × Option Img :=
  if r > chance then (X, y) else
  (fun a b c =>
    if a < s0 ∧ b < s1 ∧ c < s2 ∧ mask a b c ≤ drop_probability
    then drop_value else X a b c, y)

/-- Embedding of `augmentation_drop_channel`.  `trials` are the
per-channel Bernoulli draws of the early-exit loop (the loop body draws
at most `channels` values; `drop_a_channel` is true iff some draw is
below `drop_probability`), `chan_draw` the value of
`np.random.randint(0, channels)`. -/
def augmentation_drop_channel (s0 s1 s2 : ℕ) (X : Img) (y : Option Img)
    (chance drop_probability drop_value : ℚ) (channel_last : Bool)
    (r : ℚ) (trials : List ℚ) (chan_draw : ℕ) : Img × Option Img :=
  if r > chance then (X, y) else
  let drop_a_channel := trials.any fun t => decide (t < drop_probability)
  if ¬ drop_a_channel then (X, y) else
  let out : Img :=
    if channel_last then
      fun a b c => if c = chan_draw then drop_value else X a b c
    else
      fun a b c => if a = chan_draw then drop_value else X a b c
  (out, y)

/-- The 3×3 neighbourhood offsets of the fixed kernels. -/
def kernelOffsets3x3 : List (ℤ × ℤ) :=
  [(-1, -1), (-1, 0), (-1, 1), (0, -1), (0, 0), (0, 1), (1, -1), (1, 0), (1, 1)]

/-- Modelled from the spec: the weights of `_simple_blur_kernel_2d_3x3`
(module `buteo.array.convolution`, not among the sources) — a uniform
3×3 blur. -/
def blurWeights : List ℚ :=
  [1 / 9, 1 / 9, 1 / 9, 1 / 9, 1 / 9, 1 / 9, 1 / 9, 1 / 9, 1 / 9]

/-- Modelled from the spec: the weights of
`_simple_unsharp_kernel_2d_3x3` — an unsharp kernel of unit mass whose
response is identity plus the difference from the 3×3 blur. -/
def unsharpWeights : List ℚ :=
  [-1 / 9, -1 / 9, -1 / 9, -1 / 9, 17 / 9, -1 / 9, -1 / 9, -1 / 9, -1 / 9]

/-- Modelled from the spec: `convolve_array_simple` (module
`buteo.array.convolution`, not among the sources) on an `h × w` plane:
the weighted kernel response, renormalised over the in-bounds taps, with
`intensity` linearly interpolating between identity and the full kernel
response. -/
def convolveSimple (h w : ℕ) (P : ℕ → ℕ → ℚ) (offsets : List (ℤ × ℤ))
    (weights : List ℚ) (intensity : ℚ) : ℕ → ℕ → ℚ := fun i j =>
  let taps := (offsets.zip weights).filterMap fun ow =>
    let a : ℤ := (i : ℤ) + ow.1.1
    let b : ℤ := (j : ℤ) + ow.1.2
    if 0 ≤ a ∧ a < (h : ℤ) ∧ 0 ≤ b ∧ b < (w : ℤ)
    then some (P a.toNat b.toNat * ow.2, ow.2) else none
  let wsum := (taps.map Prod.snd).sum
  let vsum := (taps.map Prod.fst).sum
  let resp := if wsum = 0 then P i j else vsum / wsum
  (1 - intensity) * P i j + intensity * resp

/-- The per-channel kernel application shared by blur and sharpen: on
each channel of the selected layout, the plane is replaced by its
`convolveSimple` response. -/
def kernelApply (offsets : List (ℤ × ℤ)) (weights : List ℚ) (s0 s1 s2 : ℕ)
    (A : Img) (intensity : ℚ) (channel_last : Bool) : Img :=
  if channel_last then
    fun a b c =>
      if c < s2 then convolveSimple s0 s1 (fun i j => A i j c) offsets weights intensity a b
      else A a b c
  else
    fun a b c =>
      if a < s0 then convolveSimple s1 s2 (fun i j => A a i j) offsets weights intensity b c
      else A a b c

/-- Embedding of `augmentation_blur`.  `r` is the chance-gate draw. -/
def augmentation_blur (s0 s1 s2 : ℕ) (X : Img) (y : Option Img)
    (chance intensity : ℚ) (channel_last : Bool) (r : ℚ) : Img × Option Img :=
  if r > chance then (X, y) else
  (fitToDtype (kernelApply kernelOffsets3x3 blurWeights s0 s1 s2 X intensity channel_last), y)

/-- Embedding of `augmentation_blur_xy`: its own chance gate, then two
inner calls `augmentation_blur(X, None, chance, …)` and
`augmentation_blur(y, None, chance, …)`, each of which spends its own
gate draw (`rX`, `rY`) against the same `chance`. -/
def augmentation_blur_xy (s0 s1 s2 t0 t1 t2 : ℕ) (X y : Img)
    (chance intensity : ℚ) (channel_last : Bool) (r rX rY : ℚ) : Img × Img :=
  if r > chance then (X, y) else
  ((augmentation_blur s0 s1 s2 X none chance intensity channel_last rX).1,
   (augmentation_blur t0 t1 t2 y none chance intensity channel_last rY).1)

/-- Embedding of `augmentation_sharpen`. -/
def augmentation_sharpen (s0 s1 s2 : ℕ) (X : Img) (y : Option Img)
    (chance intensity : ℚ) (channel_last : Bool) (r : ℚ) : Img × Option Img :=
  if r > chance then (X, y) else
  (fitToDtype (kernelApply kernelOffsets3x3 unsharpWeights s0 s1 s2 X intensity channel_last), y)

/-- Embedding of `augmentation_sharpen_xy`, structured like
`augmentation_blur_xy`. -/
def augmentation_sharpen_xy (s0 s1 s2 t0 t1 t2 : ℕ) (X y : Img)
    (chance intensity : ℚ) (channel_last : Bool) (r rX rY : ℚ) : Img × Img :=
  if r > chance then (X, y) else
  ((augmentation_sharpen s0 s1 s2 X none chance intensity channel_last rX).1,
   (augmentation_sharpen t0 t1 t2 y none chance intensity channel_last rY).1)

/-- Modelled from the spec: `_simple_shift_kernel_2d` — a bilinear
subpixel shift kernel for the two offsets. -/
def shiftKernel (ox oy : ℚ) : List (ℤ × ℤ) × List ℚ :=
  ([(0, 0), (0, 1), (1, 0), (1, 1)],
   [(1 - ox) * (1 - oy), (1 - ox) * oy, ox * (1 - oy), ox * oy])

/-- Embedding of `augmentation_misalign`.  `o1`, `o2` are the two unit
uniform draws behind the offsets, `chan_draw` the drawn channel. -/
def augmentation_misalign (s0 s1 s2 : ℕ) (X : Img) (y : Option Img)
    (chance max_offset : ℚ) (channel_last : Bool) (r o1 o2 : ℚ)
    (chan_draw : ℕ) : Img × Option Img :=
  if r > chance then (X, y) else
  let ow := shiftKernel (min o1 max_offset) (min o2 max_offset)
  let out : Img :=
    if channel_last then
      fun a b c =>
        if c = chan_draw then convolveSimple s0 s1 (fun i j => X i j c) ow.1 ow.2 1 a b
        else X a b c
    else
      fun a b c =>
        if a = chan_draw then convolveSimple s1 s2 (fun i j => X a i j) ow.1 ow.2 1 b c
        else X a b c
  (fitToDtype out, y.map fitToDtype)

/-- Lower bound of the cutmix patch-size draw along an axis of the given
extent: the first argument of
`np.random.randint(int(extent * min_size), int(extent * max_size))`. -/
def cutmix_size_lo (extent : ℕ) (min_size : ℚ) : ℤ := pyInt (extent * min_size)

/-- Upper (exclusive) bound of the cutmix patch-size draw:
`int(extent * max_size)`. -/
def cutmix_size_hi (extent : ℕ) (max_size : ℚ) : ℤ := pyInt (extent * max_size)

/-- The feather adjustment of a drawn patch size:
`patch += feather_dist * 2; patch = min(patch, extent)` when feathering,
the drawn size unchanged otherwise. -/
def cutmixAdjSize (feather : Bool) (feather_dist extent patch : ℕ) : ℕ :=
  if feather then min (patch + feather_dist * 2) extent else patch

/-- The feathered bounding-box expansion of `augmentation_cutmix`,
clamped against `x_mixed.shape[0]` and `x_mixed.shape[1]` exactly as in
the source (`x0 = max(0, x0 - fd)`, `x1 = min(x1 + 1 + fd, shape[1])`,
`y0 = max(0, y0 - fd)`, `y1 = min(y1 + 1 + fd, shape[0])`); note the
clamps use the raw leading shape entries whatever the layout.  Returned
as `(x0, x1, y0, y1)`. -/
def cutmixFeatherBox (shape0 shape1 feather_dist x0 x1 y0 y1 : ℕ) :
    ℕ × ℕ × ℕ × ℕ :=
  (x0 - feather_dist, min (x1 + 1 + feather_dist) shape1,
   y0 - feather_dist, min (y1 + 1 + feather_dist) shape0)

/-- The spatial region actually written by a cutmix call: the feathered
expansion when feathering, the raw patch otherwise. -/
def cutmixFinalBox (shape0 shape1 : ℕ) (feather : Bool)
    (feather_dist x0 x1 y0 y1 : ℕ) : ℕ × ℕ × ℕ × ℕ :=
  if feather then cutmixFeatherBox shape0 shape1 feather_dist x0 x1 y0 y1
  else (x0, x1, y0, y1)

/-- Modelled from the spec: `_feather_box_2d` (module
`buteo.ai.augmentation_utils`, not among the sources).  The target's
per-pixel feather weight: 0 inside the patch, rising with the pixel's
distance to the patch boundary to 1 at `feather_dist` pixels outside. -/
def featherBox2d (x0 x1 y0 y1 feather_dist : ℕ) : ℕ → ℕ → ℚ := fun i j =>
  let d : ℕ := max (max (x0 - j) (j - (x1 - 1))) (max (y0 - i) (i - (y1 - 1)))
  if feather_dist = 0 then (if d = 0 then 0 else 1)
  else min 1 ((d : ℚ) / (feather_dist : ℚ))

/-- Membership in the non-feathered cutmix patch, at raw indices of the
selected layout (`channel_last`: `a` is the row, `b` the col; channel
first: `b` is the row, `c` the col). -/
def inCutmixPatch (channel_last : Bool) (x0 x1 y0 y1 a b c : ℕ) : Prop :=
  if channel_last then y0 ≤ a ∧ a < y1 ∧ x0 ≤ b ∧ b < x1
  else y0 ≤ b ∧ b < y1 ∧ x0 ≤ c ∧ c < x1

instance (channel_last : Bool) (x0 x1 y0 y1 a b c : ℕ) :
    Decidable (inCutmixPatch channel_last x0 x1 y0 y1 a b c) := by
  unfold inCutmixPatch; infer_instance

/-- Embedding of `augmentation_cutmix`.  Draws: `r` is the chance-gate
draw, `ph`/`pw` the patch-size draws, `x0d`/`y0d` the patch-origin
draws.  `s0 s1 s2` is the raw shape of the feature pair, `t0 t1 t2` of
the label pair. -/
def augmentation_cutmix (s0 s1 s2 t0 _t1 t2 : ℕ)
    (X_target y_target X_source y_source : Img)
    (chance min_size max_size : ℚ) (label_mix : ℕ)
    (feather : Bool) (feather_dist : ℕ) (channel_last : Bool)
    (r : ℚ) (ph pw x0d y0d : ℕ) : Img × Img :=
  if r > chance then (X_target, y_target) else
  let height := if channel_last then s0 else s1
  let width := if channel_last then s1 else s2
  let channels_x := if channel_last then s2 else s0
  let channels_y := if channel_last then t2 else t0
  let patch_height := cutmixAdjSize feather feather_dist height ph
  let patch_width := cutmixAdjSize feather feather_dist width pw
  let x0 := x0d
  let y0 := y0d
  let x1 := x0 + patch_width
  let y1 := y0 + patch_height
  if feather then
    let fwt := featherBox2d x0 x1 y0 y1 feather_dist
    let fws : ℕ → ℕ → ℚ := fun i j => 1 - fwt i j
    let box := cutmixFeatherBox s0 s1 feather_dist x0 x1 y0 y1
    let bx0 := box.1
    let bx1 := box.2.1
    let by0 := box.2.2.1
    let by1 := box.2.2.2
    let mixPix : ℚ → ℚ → ℕ → ℕ → ℚ := fun tv sv i j => tv * fwt i j + sv * fws i j
    let labelPix : ℚ → ℚ → ℕ → ℕ → ℚ := fun tv sv i j =>
      if label_mix = 0 then tv * fwt i j + sv * fws i j
      else if label_mix = 1 then tv
      else if label_mix = 2 then sv
      else if label_mix = 3 then max tv sv
      else if label_mix = 4 then min tv sv
      else if label_mix = 5 then (if fwt i j > fws i j then tv else sv)
      else if label_mix = 6 then (if fwt i j < fws i j then tv else sv)
      else if label_mix = 7 then tv + sv
      else tv
    if channel_last then
      (fitToDtype fun a b c =>
        if by0 ≤ a ∧ a < by1 ∧ bx0 ≤ b ∧ b < bx1 ∧ c < channels_x
        then mixPix (X_target a b c) (X_source a b c) a b else X_target a b c,
       fitToDtype fun a b c =>
        if by0 ≤ a ∧ a < by1 ∧ bx0 ≤ b ∧ b < bx1 ∧ c < channels_y
        then labelPix (y_target a b c) (y_source a b c) a b else y_target a b c)
    else
      (fitToDtype fun a b c =>
        if by0 ≤ b ∧ b < by1 ∧ bx0 ≤ c ∧ c < bx1 ∧ a < channels_x
        then mixPix (X_target a b c) (X_source a b c) b c else X_target a b c,
       fitToDtype fun a b c =>
        if by0 ≤ b ∧ b < by1 ∧ bx0 ≤ c ∧ c < bx1 ∧ a < channels_y
        then labelPix (y_target a b c) (y_source a b c) b c else y_target a b c)
  else
    if channel_last then
      (fitToDtype fun a b c =>
        if y0 ≤ a ∧ a < y1 ∧ x0 ≤ b ∧ b < x1 then X_source a b c else X_target a b c,
       fitToDtype fun a b c =>
        if y0 ≤ a ∧ a < y1 ∧ x0 ≤ b ∧ b < x1 then y_source a b c else y_target a b c)
    else
      (fitToDtype fun a b c =>
        if y0 ≤ b ∧ b < y1 ∧ x0 ≤ c ∧ c < x1 then X_source a b c else X_target a b c,
       fitToDtype fun a b c =>
        if y0 ≤ b ∧ b < y1 ∧ x0 ≤ c ∧ c < x1 then y_source a b c else y_target a b c)

/-- The mixup interpolation coefficient
`np.float32(min(np.random.uniform(min_size, max_size + 0.001), 1.0))`,
with the unit uniform draw `u ∈ [0,1)` behind `np.random.uniform` made
explicit (`uniform(a, b) = a + u*(b - a)`). -/
def mixupCoeff (min_size max_size u : ℚ) : ℚ :=
  min (min_size + u * (max_size + 1 / 1000 - min_size)) 1

/-- Embedding of `augmentation_mixup`.  Draws: `r` is the chance-gate
draw of `np.random.rand()`, `u` the unit uniform behind the coefficient
draw. -/
def augmentation_mixup (X_target y_target X_source y_source : Img)
    (min_size max_size : ℚ) (label_mix : ℕ) (chance : ℚ)
    (_channel_last : Bool) (r u : ℚ) : Img × Img :=
  if r > chance then (X_target, y_target) else
  let x_mixed_target := X_target
  let y_mixed_target := y_target
  let x_mixed_source := X_source
  let y_mixed_source := y_source
  let mixup_coeff := mixupCoeff min_size max_size u
  let x_out : Img := fun i j c =>
    x_mixed_target i j c * mixup_coeff + x_mixed_source i j c * (1 - mixup_coeff)
  let y_out : Img :=
    if label_mix = 0 then
      fun i j c =>
        y_mixed_target i j c * mixup_coeff + y_mixed_source i j c * (1 - mixup_coeff)
    else if label_mix = 1 then y_mixed_target
    else if label_mix = 2 then y_mixed_source
    else if label_mix = 3 then fun i j c => max (y_mixed_target i j c) (y_mixed_source i j c)
    else if label_mix = 4 then fun i j c => min (y_mixed_target i j c) (y_mixed_source i j c)
    else if label_mix = 5 then
      (if mixup_coeff ≥ 1 / 2 then y_mixed_target else y_mixed_source)
    else if label_mix = 6 then
      (if mixup_coeff ≥ 1 / 2 then y_mixed_target else y_mixed_source)
    else if label_mix = 7 then fun i j c => y_mixed_target i j c + y_mixed_source i j c
    else y_mixed_target
  (fitToDtype x_out, fitToDtype y_out)

lemma pyInt_of_nonneg (q : ℚ) (h : 0 ≤ q) : pyInt q = ⌊q⌋ := by
  unfold pyInt
  rw [if_neg (not_lt.2 h)]

lemma cutmix_size_hi_le (e : ℕ) (mx : ℚ) (h0 : 0 ≤ mx) (h1 : mx ≤ 1) :
    cutmix_size_hi e mx ≤ (e : ℤ) := by
  unfold cutmix_size_hi
  rw [pyInt_of_nonneg _ (by positivity)]
  have he : (e : ℚ) * mx ≤ (e : ℚ) := by nlinarith [Nat.cast_nonneg (α := ℚ) e]
  calc ⌊(e : ℚ) * mx⌋ ≤ ⌊(e : ℚ)⌋ := Int.floor_le_floor he
    _ = (e : ℤ) := by exact_mod_cast Int.floor_natCast e

lemma cutmixAdjSize_lt (feather : Bool) (fd e p : ℕ) (hi : ℤ)
    (hp : (p : ℤ) < hi) (hhi : hi ≤ (e : ℤ))
    (hfe : feather = true → hi - 1 + 2 * (fd : ℤ) < (e : ℤ)) :
    cutmixAdjSize feather fd e p < e := by
  unfold cutmixAdjSize
  cases feather with
  | false =>
    simp only [Bool.false_eq_true, if_false]
    exact_mod_cast lt_of_lt_of_le hp hhi
  | true =>
    simp only [if_true]
    refine lt_of_le_of_lt (min_le_left _ _) ?_
    have : (p : ℤ) + (fd : ℤ) * 2 < (e : ℤ) := by
      have h2 := hfe rfl
      omega
    exact_mod_cast this

/-- An augmentation record of `AugmentationDataset`: the `name` key plus
the keyword parameters forwarded to the transform (every field a
transform might consume, mirroring the functions' keyword defaults). -/
structure AugSpec where
  name : String
  chance : ℚ
  k : Option ℕ
  max_amount : ℚ
  additive : Bool
  drop_probability : ℚ
  drop_value : ℚ
  intensity : ℚ
  max_offset : ℚ
  min_size : ℚ
  max_size : ℚ
  label_mix : ℕ
  feather : Bool
  feather_dist : ℕ

/-- An augmentation record with the source functions' default keyword
values. -/
def defaultAugSpec (nm : String) : AugSpec :=
  ⟨nm, 1 / 5, none, 1 / 10, false, 1 / 10, 0, 1, 1 / 2, 333 / 1000, 666 / 1000, 0, false, 3⟩

/-- The bundle of RNG draws one pipeline step may consume. -/
structure Draws where
  gate : ℚ
  kdraw : ℕ
  adraw : ℚ
  z : Img
  uc : ℕ → ℚ
  mask : Img
  trials : List ℚ
  chan : ℕ
  o1 : ℚ
  o2 : ℚ
  u : ℚ
  ph : ℕ
  pw : ℕ
  px : ℕ
  py : ℕ
  rX : ℚ
  rY : ℚ
  donor : ℕ

/-- The training set held by `AugmentationDataset` (stored channel-first
after the constructor's conversion), with the raw shapes of the feature
and label samples. -/
structure AugDataset where
  xs : ℕ → Img
  ys : ℕ → Img
  xs0 : ℕ
  xs1 : ℕ
  xs2 : ℕ
  ys0 : ℕ
  ys1 : ℕ
  ys2 : ℕ

/-- The transform names recognised by the dispatch chain of
`AugmentationDataset.__getitem__`. -/
def supportedAugNames : List String :=
  ["rotation", "mirror", "channel_scale", "noise", "contrast", "drop_pixel",
   "drop_channel", "blur", "blur_xy", "sharpen", "sharpen_xy", "misalign",
   "cutmix", "mixup"]

/-- One iteration of the augmentation loop of
`AugmentationDataset.__getitem__`: map the record's name to its
function (`channel_last` is always false there) and apply it, or fail
with the `ValueError` naming the unrecognised value.  Mixing transforms
additionally read the donor sample drawn by `d.donor`. -/
def applyAugStep (ds : AugDataset) (d : Draws) (a : AugSpec) (s : Img × Img) :
    Except String (Img × Img) :=
  if a.name = "rotation" then
    let res := augmentation_rotation ds.xs0 ds.xs1 ds.xs2 ds.ys0 ds.ys1 ds.ys2
      s.1 (some s.2) a.chance a.k false d.gate d.kdraw
    .ok (res.1, res.2.getD s.2)
  else if a.name = "mirror" then
    let res := augmentation_mirror ds.xs0 ds.xs1 ds.xs2 ds.ys0 ds.ys1 ds.ys2
      s.1 (some s.2) a.chance a.k false d.gate d.kdraw
    .ok (res.1, res.2.getD s.2)
  else if a.name = "channel_scale" then
    let res := augmentation_channel_scale ds.xs0 ds.xs1 ds.xs2 s.1 (some s.2)
      a.chance a.max_amount a.additive false d.gate d.adraw d.uc
    .ok (res.1, res.2.getD s.2)
  else if a.name = "noise" then
    let res := augmentation_noise s.1 (some s.2) a.chance a.max_amount
      a.additive false d.gate d.adraw d.z
    .ok (res.1, res.2.getD s.2)
  else if a.name = "contrast" then
    let res := augmentation_contrast ds.xs0 ds.xs1 ds.xs2 s.1 (some s.2)
      a.chance a.max_amount false d.gate d.adraw
    .ok (res.1, res.2.getD s.2)
  else if a.name = "drop_pixel" then
    let res := augmentation_drop_pixel ds.xs0 ds.xs1 ds.xs2 s.1 (some s.2)
      a.chance a.drop_probability a.drop_value false d.gate d.mask
    .ok (res.1, res.2.getD s.2)
  else if a.name = "drop_channel" then
    let res := augmentation_drop_channel ds.xs0 ds.xs1 ds.xs2 s.1 (some s.2)
      a.chance a.drop_probability a.drop_value false d.gate d.trials d.chan
    .ok (res.1, res.2.getD s.2)
  else if a.name = "blur" then
    let res := augmentation_blur ds.xs0 ds.xs1 ds.xs2 s.1 (some s.2)
      a.chance a.intensity false d.gate
    .ok (res.1, res.2.getD s.2)
  else if a.name = "blur_xy" then
    .ok (augmentation_blur_xy ds.xs0 ds.xs1 ds.xs2 ds.ys0 ds.ys1 ds.ys2
      s.1 s.2 a.chance a.intensity false d.gate d.rX d.rY)
  else if a.name = "sharpen" then
    let res := augmentation_sharpen ds.xs0 ds.xs1 ds.xs2 s.1 (some s.2)
      a.chance a.intensity false d.gate
    .ok (res.1, res.2.getD s.2)
  else if a.name = "sharpen_xy" then
    .ok (augmentation_sharpen_xy ds.xs0 ds.xs1 ds.xs2 ds.ys0 ds.ys1 ds.ys2
      s.1 s.2 a.chance a.intensity false d.gate d.rX d.rY)
  else if a.name = "misalign" then
    let res := augmentation_misalign ds.xs0 ds.xs1 ds.xs2 s.1 (some s.2)
      a.chance a.max_offset false d.gate d.o1 d.o2 d.chan
    .ok (res.1, res.2.getD s.2)
  else if a.name = "cutmix" then
    .ok (augmentation_cutmix ds.xs0 ds.xs1 ds.xs2 ds.ys0 ds.ys1 ds.ys2
      s.1 s.2 (ds.xs d.donor) (ds.ys d.donor) a.chance a.min_size a.max_size
      a.label_mix a.feather a.feather_dist false d.gate d.ph d.pw d.px d.py)
  else if a.name = "mixup" then
    .ok (augmentation_mixup s.1 s.2 (ds.xs d.donor) (ds.ys d.donor)
      a.min_size a.max_size a.label_mix a.chance false d.gate d.u)
  else
    .error ("Augmentation " ++ a.name ++ " not supported.")

/-- The augmentation loop of `AugmentationDataset.__getitem__` over the
record list, threading the sample and consuming one draw bundle per
step; the first unsupported record raises and the loop stops. -/
def applyAugList (ds : AugDataset) (dr : ℕ → Draws) :
    List AugSpec → ℕ → Img × Img → Except String (Img × Img)
  | [], _, s => .ok s
  | a :: rest, i, s =>
    match applyAugStep ds (dr i) a s with
    | .error e => .error e
    | .ok s' => applyAugList ds dr rest (i + 1) s'

lemma applyAugStep_ok_of_supported (ds : AugDataset) (d : Draws)
    (a : AugSpec) (s : Img × Img) (h : a.name ∈ supportedAugNames) :
    ∃ s', applyAugStep ds d a s = .ok s' := by
  simp only [supportedAugNames, List.mem_cons, List.not_mem_nil, or_false] at h
  rcases h with h | h | h | h | h | h | h | h | h | h | h | h | h | h <;>
    exact ⟨_, by simp only [applyAugStep, h]; rfl⟩

lemma applyAugStep_error_of_unsupported (ds : AugDataset) (d : Draws)
    (a : AugSpec) (s : Img × Img) (h : a.name ∉ supportedAugNames) :
    applyAugStep ds d a s
      = .error ("Augmentation " ++ a.name ++ " not supported.") := by
  simp only [supportedAugNames, List.mem_cons, List.not_mem_nil, or_false,
    not_or] at h
  obtain ⟨h1, h2, h3, h4, h5, h6, h7, h8, h9, h10, h11, h12, h13, h14⟩ := h
  simp [applyAugStep, h1, h2, h3, h4, h5, h6, h7, h8, h9, h10, h11, h12, h13, h14]

/-- C9: applying the pipeline to a sample, a record whose name is not
one of the supported transform names makes the whole application fail
with the `ValueError` message naming the unrecognised value, as soon as
that record is reached; the records after it are never applied (no
retry), and the failing step produces no modified sample. -/
theorem C9_unsupported_name_error (ds : AugDataset) (dr : ℕ → Draws)
    (pre post : List AugSpec) (bad : AugSpec) (i : ℕ) (s : Img × Img)
    (hpre : ∀ a ∈ pre, a.name ∈ supportedAugNames)
    (hbad : bad.name ∉ supportedAugNames) :
    applyAugList ds dr (pre ++ bad :: post) i s
      = .error ("Augmentation " ++ bad.name ++ " not supported.") := by
  induction pre generalizing i s with
  | nil =>
    simp only [List.nil_append, applyAugList,
      applyAugStep_error_of_unsupported ds (dr i) bad s hbad]
  | cons a t ih =>
    obtain ⟨s', hs'⟩ := applyAugStep_ok_of_supported ds (dr i) a s
      (hpre a (List.mem_cons_self a t))
    simp only [List.cons_append, applyAugList, hs']
    exact ih (i + 1) s' (fun b hb => hpre b (List.mem_cons_of_mem a hb))

/-- A trivial concrete dataset for the C9 witness. -/
def witnessDataset : AugDataset :=
  ⟨fun _ => constImg 0, fun _ => constImg 0, 1, 1, 1, 1, 1, 1⟩

/-- A trivial concrete draw supply for the C9 witness. -/
def witnessDraws : ℕ → Draws :=
  fun _ => ⟨1, 1, 0, constImg 0, fun _ => 0, constImg 0, [], 0, 0, 0, 0, 0, 0, 0, 0, 1, 1, 0⟩

/-- Witness for C9: a pipeline `[rotation, warp, mirror]` fails with the
error naming `warp`. -/
theorem C9_witness :
    ((∀ a ∈ [defaultAugSpec "rotation"], a.name ∈ supportedAugNames)
      ∧ (defaultAugSpec "warp").name ∉ supportedAugNames) ∧
    applyAugList witnessDataset witnessDraws
        ([defaultAugSpec "rotation"] ++ defaultAugSpec "warp" :: [defaultAugSpec "mirror"])
        0 (constImg 0, constImg 0)
      = .error ("Augmentation " ++ (defaultAugSpec "warp").name ++ " not supported.") :=
  ⟨⟨by intro a ha; simp only [List.mem_singleton] at ha; subst ha; simp [defaultAugSpec, supportedAugNames],
    by simp [defaultAugSpec, supportedAugNames]⟩,
   C9_unsupported_name_error witnessDataset witnessDraws
     [defaultAugSpec "rotation"] [defaultAugSpec "mirror"] (defaultAugSpec "warp")
     0 (constImg 0, constImg 0)
     (by intro a ha; simp only [List.mem_singleton] at ha; subst ha
         simp [defaultAugSpec, supportedAugNames])
     (by simp [defaultAugSpec, supportedAugNames])⟩

/-- C1: for a non-feathered cutmix call whose chance gate passes, the
output feature equals the donor's feature at every raw position inside
the chosen rectangular patch, exactly, and equals the target's original
feature at every position outside it, exactly; the same holds for the
label — under either layout. -/
theorem C1_cutmix_nofeather_frame (s0 s1 s2 t0 t1 t2 : ℕ)
    (Xt yt Xs ys : Img) (chance mn mx : ℚ) (lm fd : ℕ) (cl : Bool)
    (r : ℚ) (ph pw x0 y0 : ℕ) (hr : ¬ r > chance) :
    ∀ a b c,
      (augmentation_cutmix s0 s1 s2 t0 t1 t2 Xt yt Xs ys chance mn mx lm
          false fd cl r ph pw x0 y0).1 a b c
        = (if inCutmixPatch cl x0 (x0 + pw) y0 (y0 + ph) a b c
           then Xs a b c else Xt a b c)
      ∧ (augmentation_cutmix s0 s1 s2 t0 t1 t2 Xt yt Xs ys chance mn mx lm
          false fd cl r ph pw x0 y0).2 a b c
        = (if inCutmixPatch cl x0 (x0 + pw) y0 (y0 + ph) a b c
           then ys a b c else yt a b c) := by
  intro a b c
  cases cl <;>
    simp [augmentation_cutmix, if_neg hr, cutmixAdjSize, inCutmixPatch, fitToDtype]

/-- Witness for C1 at concrete inputs. -/
theorem C1_witness :
    ¬ (0 : ℚ) > 1 ∧
      (∀ a b c,
        (augmentation_cutmix 8 8 1 8 8 1 (constImg 1) (constImg 2) (constImg 3)
            (constImg 4) 1 (1 / 4) (3 / 4) 0 false 3 true 0 3 3 2 1).1 a b c
          = (if inCutmixPatch true 2 (2 + 3) 1 (1 + 3) a b c
             then constImg 3 a b c else constImg 1 a b c)
        ∧ (augmentation_cutmix 8 8 1 8 8 1 (constImg 1) (constImg 2) (constImg 3)
            (constImg 4) 1 (1 / 4) (3 / 4) 0 false 3 true 0 3 3 2 1).2 a b c
          = (if inCutmixPatch true 2 (2 + 3) 1 (1 + 3) a b c
             then constImg 4 a b c else constImg 2 a b c)) :=
  ⟨by norm_num,
   C1_cutmix_nofeather_frame 8 8 1 8 8 1 (constImg 1) (constImg 2) (constImg 3)
     (constImg 4) 1 (1 / 4) (3 / 4) 0 3 true 0 3 3 2 1 (by norm_num)⟩

/-- C8 (amended): for a cutmix call that fires with
`0 ≤ min_size ≤ max_size ≤ 1`, PROVIDED the truncated patch-size ranges
are non-empty (`int(extent·min_size) < int(extent·max_size)` on both
axes) and, in feathered mode, the layout is channel-last and the
feather-expanded sizes stay strictly below the extents
(`int(extent·max_size) - 1 + 2·feather_dist < extent`): the patch-origin
draws have non-empty ranges (`extent - patch > 0` on both axes) and the
spatial region actually written, including any feather expansion, lies
fully inside the array bounds. -/
theorem C8_cutmix_bounds (h w cx : ℕ) (mn mx : ℚ) (feather : Bool)
    (fd : ℕ) (cl : Bool) (ph pw : ℕ)
    (hmn : 0 ≤ mn) (hmm : mn ≤ mx) (hmx : mx ≤ 1)
    (hne_h : cutmix_size_lo h mn < cutmix_size_hi h mx)
    (hne_w : cutmix_size_lo w mn < cutmix_size_hi w mx)
    (hph : cutmix_size_lo h mn ≤ (ph : ℤ) ∧ (ph : ℤ) < cutmix_size_hi h mx)
    (hpw : cutmix_size_lo w mn ≤ (pw : ℤ) ∧ (pw : ℤ) < cutmix_size_hi w mx)
    (hfe : feather = true → cl = true
      ∧ cutmix_size_hi h mx - 1 + 2 * (fd : ℤ) < (h : ℤ)
      ∧ cutmix_size_hi w mx - 1 + 2 * (fd : ℤ) < (w : ℤ)) :
    cutmixAdjSize feather fd h ph < h
    ∧ cutmixAdjSize feather fd w pw < w
    ∧ ∀ x0 y0 : ℕ,
        x0 + cutmixAdjSize feather fd w pw < w →
        y0 + cutmixAdjSize feather fd h ph < h →
        (cutmixFinalBox (if cl then h else cx) (if cl then w else h) feather fd
            x0 (x0 + cutmixAdjSize feather fd w pw)
            y0 (y0 + cutmixAdjSize feather fd h ph)).2.1 ≤ w
        ∧ (cutmixFinalBox (if cl then h else cx) (if cl then w else h) feather fd
            x0 (x0 + cutmixAdjSize feather fd w pw)
            y0 (y0 + cutmixAdjSize feather fd h ph)).2.2.2 ≤ h := by
  have hmx0 : 0 ≤ mx := le_trans hmn hmm
  have hhih := cutmix_size_hi_le h mx hmx0 hmx
  have hhiw := cutmix_size_hi_le w mx hmx0 hmx
  refine ⟨cutmixAdjSize_lt feather fd h ph _ hph.2 hhih (fun hf => (hfe hf).2.1),
    cutmixAdjSize_lt feather fd w pw _ hpw.2 hhiw (fun hf => (hfe hf).2.2), ?_⟩
  intro x0 y0 hx0 hy0
  cases feather with
  | false =>
    simp only [cutmixFinalBox, Bool.false_eq_true, if_false]
    exact ⟨le_of_lt hx0, le_of_lt hy0⟩
  | true =>
    have hcl : cl = true := (hfe rfl).1
    simp only [cutmixFinalBox, cutmixFeatherBox, if_true, hcl]
    exact ⟨min_le_right _ _, min_le_right _ _⟩

/-- Witness for C8 at concrete inputs: an 8×8 channel-last feathered
call with `min_size = 1/4`, `max_size = 3/4`, `feather_dist = 1`. -/
theorem C8_witness :
    ((0 : ℚ) ≤ 1 / 4 ∧ (1 / 4 : ℚ) ≤ 3 / 4 ∧ (3 / 4 : ℚ) ≤ 1
      ∧ cutmix_size_lo 8 (1 / 4) < cutmix_size_hi 8 (3 / 4)
      ∧ (cutmix_size_lo 8 (1 / 4) ≤ (2 : ℤ) ∧ (2 : ℤ) < cutmix_size_hi 8 (3 / 4))
      ∧ (true = true → true = true
        ∧ cutmix_size_hi 8 (3 / 4) - 1 + 2 * (1 : ℤ) < (8 : ℤ)
        ∧ cutmix_size_hi 8 (3 / 4) - 1 + 2 * (1 : ℤ) < (8 : ℤ))) ∧
    (cutmixAdjSize true 1 8 2 < 8
    ∧ cutmixAdjSize true 1 8 2 < 8
    ∧ ∀ x0 y0 : ℕ,
        x0 + cutmixAdjSize true 1 8 2 < 8 →
        y0 + cutmixAdjSize true 1 8 2 < 8 →
        (cutmixFinalBox (if true then 8 else 1) (if true then 8 else 8) true 1
            x0 (x0 + cutmixAdjSize true 1 8 2)
            y0 (y0 + cutmixAdjSize true 1 8 2)).2.1 ≤ 8
        ∧ (cutmixFinalBox (if true then 8 else 1) (if true then 8 else 8) true 1
            x0 (x0 + cutmixAdjSize true 1 8 2)
            y0 (y0 + cutmixAdjSize true 1 8 2)).2.2.2 ≤ 8) := by
  have hlo : cutmix_size_lo 8 (1 / 4) = 2 := by
    unfold cutmix_size_lo
    rw [pyInt_of_nonneg _ (by norm_num)]
    norm_num
  have hhi : cutmix_size_hi 8 (3 / 4) = 6 := by
    unfold cutmix_size_hi
    rw [pyInt_of_nonneg _ (by norm_num)]
    norm_num
  refine ⟨⟨by norm_num, by norm_num, by norm_num, by rw [hlo, hhi] <;> norm_num,
    ⟨by rw [hlo] <;> norm_num, by rw [hhi] <;> norm_num⟩,
    fun _ => ⟨rfl, by rw [hhi] <;> norm_num, by rw [hhi] <;> norm_num⟩⟩, ?_⟩
  exact C8_cutmix_bounds 8 8 1 (1 / 4) (3 / 4) true 1 true 2 2
    (by norm_num) (by norm_num) (by norm_num)
    (by rw [hlo, hhi] <;> norm_num) (by rw [hlo, hhi] <;> norm_num)
    ⟨by rw [hlo] <;> norm_num, by rw [hhi] <;> norm_num⟩
    ⟨by rw [hlo] <;> norm_num, by rw [hhi] <;> norm_num⟩
    (fun _ => ⟨rfl, by rw [hhi] <;> norm_num, by rw [hhi] <;> norm_num⟩)

/-- Counterexample for C8 as stated: with height 8 and
`min_size = max_size = 1/2` (parameters satisfying
`0 ≤ min_size ≤ max_size ≤ 1`), the patch-height draw
`np.random.randint(int(8·0.5), int(8·0.5))` has an EMPTY range — its
lower truncated bound is not below its upper one — so the claim's
"non-empty ranges for every 0 ≤ min_size ≤ max_size ≤ 1" is false. -/
theorem C8_counterexample :
    ¬ cutmix_size_lo 8 (1 / 2) < cutmix_size_hi 8 (1 / 2) := by
  have hlo : cutmix_size_lo 8 (1 / 2) = 4 := by
    unfold cutmix_size_lo
    rw [pyInt_of_nonneg _ (by norm_num)]
    norm_num
  have hhi : cutmix_size_hi 8 (1 / 2) = 4 := by
    unfold cutmix_size_hi
    rw [pyInt_of_nonneg _ (by norm_num)]
    norm_num
  rw [hlo, hhi]
  norm_num

/-- A 2×2 single-channel array with a 9 in one corner and zeros
elsewhere; the modelled 3×3 blur changes every entry of it. -/
def blurBugInput : Img := fun i j c => if i = 0 ∧ j = 0 ∧ c = 0 then 9 else 0

/-- C3 (amended): when the `_xy` call's own chance gate passes AND each
of the two inner gate draws also passes (the inner calls re-draw against
the same `chance`), the returned feature and label have both received
the identical kernel application with the given intensity — the same
statement holds for blur and for sharpen. -/
theorem C3_xy_pair_match (s0 s1 s2 t0 t1 t2 : ℕ) (X y : Img)
    (chance intensity : ℚ) (cl : Bool) (r rX rY : ℚ)
    (hr : ¬ r > chance) (hx : ¬ rX > chance) (hy : ¬ rY > chance) :
    augmentation_blur_xy s0 s1 s2 t0 t1 t2 X y chance intensity cl r rX rY
      = (kernelApply kernelOffsets3x3 blurWeights s0 s1 s2 X intensity cl,
         kernelApply kernelOffsets3x3 blurWeights t0 t1 t2 y intensity cl)
    ∧ augmentation_sharpen_xy s0 s1 s2 t0 t1 t2 X y chance intensity cl r rX rY
      = (kernelApply kernelOffsets3x3 unsharpWeights s0 s1 s2 X intensity cl,
         kernelApply kernelOffsets3x3 unsharpWeights t0 t1 t2 y intensity cl) := by
  constructor <;>
    simp [augmentation_blur_xy, augmentation_sharpen_xy, augmentation_blur,
      augmentation_sharpen, hr, hx, hy, fitToDtype]

/-- Witness for C3 at concrete inputs. -/
theorem C3_witness :
    (¬ (0 : ℚ) > 1 ∧ ¬ (0 : ℚ) > 1 ∧ ¬ (0 : ℚ) > 1) ∧
    (augmentation_blur_xy 2 2 1 2 2 1 blurBugInput blurBugInput 1 1 true 0 0 0
      = (kernelApply kernelOffsets3x3 blurWeights 2 2 1 blurBugInput 1 true,
         kernelApply kernelOffsets3x3 blurWeights 2 2 1 blurBugInput 1 true)
    ∧ augmentation_sharpen_xy 2 2 1 2 2 1 blurBugInput blurBugInput 1 1 true 0 0 0
      = (kernelApply kernelOffsets3x3 unsharpWeights 2 2 1 blurBugInput 1 true,
         kernelApply kernelOffsets3x3 unsharpWeights 2 2 1 blurBugInput 1 true)) :=
  ⟨⟨by norm_num, by norm_num, by norm_num⟩,
   C3_xy_pair_match 2 2 1 2 2 1 blurBugInput blurBugInput 1 1 true 0 0 0
     (by norm_num) (by norm_num) (by norm_num)⟩

/-- Counterexample for C3 as stated: a `blur_xy` call whose own chance
gate passes (`chance = 1/2`, outer draw 0) on identical feature and
label arrays, where the inner feature draw (0) passes but the inner
label draw (9/10) fails: the feature comes back blurred (value 9/4 at
the corner) while the label comes back unchanged (value 9), although the
identical kernel application on the label would have produced 9/4 — the
two outputs did not both receive the kernel application. -/
theorem C3_counterexample :
    (augmentation_blur_xy 2 2 1 2 2 1 blurBugInput blurBugInput (1 / 2) 1 true
        0 0 (9 / 10)).1 0 0 0 = 9 / 4
    ∧ (augmentation_blur_xy 2 2 1 2 2 1 blurBugInput blurBugInput (1 / 2) 1 true
        0 0 (9 / 10)).2 0 0 0 = 9
    ∧ kernelApply kernelOffsets3x3 blurWeights 2 2 1 blurBugInput 1 true 0 0 0 = 9 / 4 := by
  refine ⟨?_, ?_, ?_⟩ <;>
  · simp +decide only [augmentation_blur_xy, augmentation_blur, kernelApply,
      fitToDtype, convolveSimple, kernelOffsets3x3, blurWeights, blurBugInput,
      List.zip, List.zipWith, List.filterMap, List.map, List.sum_cons, List.sum_nil]
    norm_num [blurBugInput]

/-- C4: evaluation of `augmentation_contrast` at a channel-first input
(2 channels × 2 rows × 2 cols; channel 0 all 0, channel 1 all 4) with
magnitude draw `amount = 1` and a passing gate.  The code produces 8 at
raw position (1,0,0) (channel 1, row 0, col 0) because the application
loop indexes `x_contrast[:, :, i]` even when `channel_last` is false,
while the specified per-channel mapping produces 4 there: the two layout
code paths are not numerically identical. -/
theorem C4_contrast_channel_first_bug :
    (augmentation_contrast 2 2 2 contrastBugInput none 1 2 false 0 (1 / 2)).1 1 0 0 = 8
    ∧ specContrast 2 2 2 contrastBugInput 1 false 1 0 0 = 4
    ∧ (8 : ℚ) ≠ 4 := by
  refine ⟨?_, ?_, by norm_num⟩
  · simp only [augmentation_contrast, fitToDtype, if_neg (by norm_num : ¬ (0 : ℚ) > 1)]
    norm_num [contrastBugInput, mean2, sum2, List.range_succ]
  · norm_num [specContrast, contrastBugInput, mean2, sum2, List.range_succ]

/-- C5: when the chance gate of `augmentation_drop_channel` passes, with
the per-channel Bernoulli trial draws `trials` (one per channel) and the
channel draw `cd` (uniform over all channels, independent of the
trials): if no trial is below `drop_probability` the pair is returned
unchanged; if some trial is, exactly the channel `cd` is set entirely to
`drop_value`, every other channel is value-identical to the input, and
the label is untouched — so at most one distinct channel is ever
modified in a single call. -/
theorem C5_drop_channel_at_most_one (s0 s1 s2 : ℕ) (X : Img) (y : Option Img)
    (chance p dv : ℚ) (cl : Bool) (r : ℚ) (trials : List ℚ) (cd : ℕ)
    (hr : ¬ r > chance) (hlen : trials.length = (if cl then s2 else s0))
    (hcd : cd < (if cl then s2 else s0)) :
    ((∀ t ∈ trials, ¬ t < p) →
      augmentation_drop_channel s0 s1 s2 X y chance p dv cl r trials cd = (X, y))
    ∧ ((∃ t ∈ trials, t < p) →
      (∀ a b c,
        (augmentation_drop_channel s0 s1 s2 X y chance p dv cl r trials cd).1 a b c
          = (if (if cl then c else a) = cd then dv else X a b c))
      ∧ (augmentation_drop_channel s0 s1 s2 X y chance p dv cl r trials cd).2 = y) := by
  constructor
  · intro hnone
    have hany : (trials.any fun t => decide (t < p)) = false := by
      simp only [List.any_eq_false, decide_eq_true_eq]
      exact hnone
    simp [augmentation_drop_channel, hr, hany]
  · intro hsome
    have hany : (trials.any fun t => decide (t < p)) = true := by
      simp only [List.any_eq_true, decide_eq_true_eq]
      exact hsome
    constructor
    · intro a b c
      cases cl <;> simp [augmentation_drop_channel, hr, hany]
    · cases cl <;> simp [augmentation_drop_channel, hr, hany]

/-- Witness for C5 at concrete inputs: three channels, channel-last,
trials `[1/2, 1/100, 9/10]` against `drop_probability = 1/20`, channel
draw 1. -/
theorem C5_witness :
    (¬ (0 : ℚ) > 1 ∧ ([(1 : ℚ) / 2, 1 / 100, 9 / 10].length = (if true then 3 else 2))
      ∧ 1 < (if true then 3 else 2)) ∧
    (((∀ t ∈ [(1 : ℚ) / 2, 1 / 100, 9 / 10], ¬ t < 1 / 20) →
      augmentation_drop_channel 2 2 3 (constImg 7) (some (constImg 5)) 1 (1 / 20) 0 true 0
        [(1 : ℚ) / 2, 1 / 100, 9 / 10] 1 = (constImg 7, some (constImg 5)))
    ∧ ((∃ t ∈ [(1 : ℚ) / 2, 1 / 100, 9 / 10], t < 1 / 20) →
      (∀ a b c,
        (augmentation_drop_channel 2 2 3 (constImg 7) (some (constImg 5)) 1 (1 / 20) 0 true 0
          [(1 : ℚ) / 2, 1 / 100, 9 / 10] 1).1 a b c
          = (if (if true then c else a) = 1 then 0 else constImg 7 a b c))
      ∧ (augmentation_drop_channel 2 2 3 (constImg 7) (some (constImg 5)) 1 (1 / 20) 0 true 0
          [(1 : ℚ) / 2, 1 / 100, 9 / 10] 1).2 = some (constImg 5))) :=
  ⟨⟨by norm_num, by norm_num, by norm_num⟩,
   C5_drop_channel_at_most_one 2 2 3 (constImg 7) (some (constImg 5)) 1 (1 / 20) 0 true 0
     [(1 : ℚ) / 2, 1 / 100, 9 / 10] 1 (by norm_num) (by norm_num) (by norm_num)⟩

/-- C10: `augmentation_drop_channel` never modifies the label: for every
input, every parameter choice and every possible set of random draws,
the returned label is the input label unchanged. -/
theorem C10_drop_channel_label_unchanged (s0 s1 s2 : ℕ) (X : Img)
    (y : Option Img) (chance p dv : ℚ) (cl : Bool) (r : ℚ)
    (trials : List ℚ) (cd : ℕ) :
    (augmentation_drop_channel s0 s1 s2 X y chance p dv cl r trials cd).2 = y := by
  unfold augmentation_drop_channel
  dsimp only
  repeat' split
  all_goals rfl

/-- C6: on identical inputs with identical random draws, mixup with
`label_mix = 5` and `label_mix = 6` return identical outputs; and when
the chance gate passes, in both modes the output label is the target
label when the drawn coefficient is at least 1/2 and the donor label
otherwise. -/
theorem C6_mixup_label_mix_5_6 (Xt yt Xs ys : Img) (mn mx chance : ℚ)
    (cl : Bool) (r u : ℚ) (hr : ¬ r > chance) :
    augmentation_mixup Xt yt Xs ys mn mx 5 chance cl r u
      = augmentation_mixup Xt yt Xs ys mn mx 6 chance cl r u
    ∧ (augmentation_mixup Xt yt Xs ys mn mx 5 chance cl r u).2
      = (if mixupCoeff mn mx u ≥ 1 / 2 then yt else ys) := by
  constructor
  · simp [augmentation_mixup]
  · simp [augmentation_mixup, hr, fitToDtype]

/-- Witness for C6 at concrete inputs. -/
theorem C6_witness :
    ¬ (0 : ℚ) > 1 ∧
      (augmentation_mixup (constImg 10) (constImg 10) (constImg 20) (constImg 20)
          (1 / 2) (1 / 2) 5 1 true 0 (1 / 2)
        = augmentation_mixup (constImg 10) (constImg 10) (constImg 20) (constImg 20)
          (1 / 2) (1 / 2) 6 1 true 0 (1 / 2)
      ∧ (augmentation_mixup (constImg 10) (constImg 10) (constImg 20) (constImg 20)
          (1 / 2) (1 / 2) 5 1 true 0 (1 / 2)).2
        = (if mixupCoeff (1 / 2) (1 / 2) (1 / 2) ≥ 1 / 2 then constImg 10 else constImg 20)) :=
  ⟨by norm_num,
   C6_mixup_label_mix_5_6 (constImg 10) (constImg 10) (constImg 20) (constImg 20)
     (1 / 2) (1 / 2) 1 true 0 (1 / 2) (by norm_num)⟩

/-- C7 (amended): when the chance gate passes, mixup with `label_mix = 0`
returns a label equal to `λ·target_label + (1-λ)·donor_label` with the
very coefficient `λ = mixupCoeff min_size max_size u` used for the
feature blend; and in the concrete scenario of two constant arrays 10 and
20 with `min_size = max_size = 1/2`, `chance = 1`, the output feature is
the uniform value `15 - u/100`, which lies in `(14.99, 15]` (equal to 15
only when the uniform draw `u` is 0, because the coefficient draw is
`uniform(min_size, max_size + 0.001)`). -/
theorem C7_mixup_lambda (Xt yt Xs ys : Img) (mn mx chance : ℚ) (cl : Bool)
    (r u : ℚ) (hr : ¬ r > chance) (hu0 : 0 ≤ u) (hu1 : u < 1) :
    (∀ i j c, (augmentation_mixup Xt yt Xs ys mn mx 0 chance cl r u).2 i j c
      = mixupCoeff mn mx u * yt i j c + (1 - mixupCoeff mn mx u) * ys i j c)
    ∧ (∀ i j c,
        (augmentation_mixup (constImg 10) yt (constImg 20) ys (1 / 2) (1 / 2) 0 chance cl r u).1 i j c
          = 15 - u / 100)
    ∧ 1499 / 100 < (15 : ℚ) - u / 100 ∧ (15 : ℚ) - u / 100 ≤ 15 := by
  have hcoeff : mixupCoeff (1 / 2) (1 / 2) u = 1 / 2 + u / 1000 := by
    unfold mixupCoeff
    rw [min_eq_left (by nlinarith)]
    ring
  refine ⟨?_, ?_, by nlinarith, by nlinarith⟩
  · intro i j c
    simp only [augmentation_mixup, if_neg hr, fitToDtype, if_pos rfl, ite_true]
    ring
  · intro i j c
    simp only [augmentation_mixup, if_neg hr, fitToDtype, if_pos rfl, ite_true, constImg]
    rw [hcoeff]
    ring

/-- Witness for C7 at concrete inputs. -/
theorem C7_witness :
    (¬ (0 : ℚ) > 1 ∧ (0 : ℚ) ≤ 1 / 2 ∧ (1 / 2 : ℚ) < 1) ∧
      ((∀ i j c,
          (augmentation_mixup (constImg 10) (constImg 1) (constImg 20) (constImg 2)
              (1 / 2) (1 / 2) 0 1 true 0 (1 / 2)).2 i j c
            = mixupCoeff (1 / 2) (1 / 2) (1 / 2) * constImg 1 i j c
              + (1 - mixupCoeff (1 / 2) (1 / 2) (1 / 2)) * constImg 2 i j c)
      ∧ (∀ i j c,
          (augmentation_mixup (constImg 10) (constImg 1) (constImg 20) (constImg 2)
              (1 / 2) (1 / 2) 0 1 true 0 (1 / 2)).1 i j c
            = 15 - (1 / 2) / 100)
      ∧ 1499 / 100 < (15 : ℚ) - (1 / 2) / 100 ∧ (15 : ℚ) - (1 / 2) / 100 ≤ 15) :=
  ⟨⟨by norm_num, by norm_num, by norm_num⟩,
   C7_mixup_lambda (constImg 10) (constImg 1) (constImg 20) (constImg 2)
     (1 / 2) (1 / 2) 1 true 0 (1 / 2) (by norm_num) (by norm_num) (by norm_num)⟩

/-- Counterexample for C7 as stated: in the concrete scenario (two 8×8×1
constant arrays 10 and 20, `min_size = max_size = 0.5`, `chance = 1.0`)
with the coefficient's unit uniform draw at `u = 1/2`, the output is
`14.995`, not the claimed uniform value 15, because the source draws the
coefficient from `uniform(min_size, max_size + 0.001)`. -/
theorem C7_counterexample :
    (augmentation_mixup (constImg 10) (constImg 10) (constImg 20) (constImg 20)
        (1 / 2) (1 / 2) 0 1 true 0 (1 / 2)).1 0 0 0 ≠ 15 := by
  have hcoeff : mixupCoeff (1 / 2) (1 / 2) (1 / 2) = 1001 / 2000 := by
    unfold mixupCoeff
    rw [min_eq_left (by norm_num)]
    norm_num
  simp only [augmentation_mixup, fitToDtype, constImg, if_pos rfl,
    if_neg (by norm_num : ¬ (0 : ℚ) > 1)]
  rw [hcoeff]
  norm_num

/-- C2 (amended): for every transform of the library and every RNG
draw whose chance-gate sample `r` is strictly positive, calling the
transform with `chance = 0` returns the feature and the label
value-identical to the inputs (at the measure-zero draw `r = 0` the gate
test `r > 0` fails and the body runs instead — see the
counterexample). -/
theorem C2_chance_zero_noop (r : ℚ) (h : 0 < r) :
    (∀ (s0 s1 s2 t0 t1 t2 : ℕ) (X : Img) (y : Option Img) (k : Option ℕ)
      (cl : Bool) (rk : ℕ),
      augmentation_rotation s0 s1 s2 t0 t1 t2 X y 0 k cl r rk = (X, y))
    ∧ (∀ (s0 s1 s2 t0 t1 t2 : ℕ) (X : Img) (y : Option Img) (k : Option ℕ)
      (cl : Bool) (rk : ℕ),
      augmentation_mirror s0 s1 s2 t0 t1 t2 X y 0 k cl r rk = (X, y))
    ∧ (∀ (X : Img) (y : Option Img) (ma : ℚ) (ad cl : Bool) (ar : ℚ) (z : Img),
      augmentation_noise X y 0 ma ad cl r ar z = (X, y))
    ∧ (∀ (s0 s1 s2 : ℕ) (X : Img) (y : Option Img) (ma : ℚ) (ad cl : Bool)
      (ar : ℚ) (uc : ℕ → ℚ),
      augmentation_channel_scale s0 s1 s2 X y 0 ma ad cl r ar uc = (X, y))
    ∧ (∀ (s0 s1 s2 : ℕ) (X : Img) (y : Option Img) (ma : ℚ) (cl : Bool) (ar : ℚ),
      augmentation_contrast s0 s1 s2 X y 0 ma cl r ar = (X, y))
    ∧ (∀ (s0 s1 s2 : ℕ) (X : Img) (y : Option Img) (p dv : ℚ) (cl : Bool)
      (mask : Img),
      augmentation_drop_pixel s0 s1 s2 X y 0 p dv cl r mask = (X, y))
    ∧ (∀ (s0 s1 s2 : ℕ) (X : Img) (y : Option Img) (p dv : ℚ) (cl : Bool)
      (trials : List ℚ) (cd : ℕ),
      augmentation_drop_channel s0 s1 s2 X y 0 p dv cl r trials cd = (X, y))
    ∧ (∀ (s0 s1 s2 : ℕ) (X : Img) (y : Option Img) (it : ℚ) (cl : Bool),
      augmentation_blur s0 s1 s2 X y 0 it cl r = (X, y))
    ∧ (∀ (s0 s1 s2 t0 t1 t2 : ℕ) (X y : Img) (it : ℚ) (cl : Bool) (rX rY : ℚ),
      augmentation_blur_xy s0 s1 s2 t0 t1 t2 X y 0 it cl r rX rY = (X, y))
    ∧ (∀ (s0 s1 s2 : ℕ) (X : Img) (y : Option Img) (it : ℚ) (cl : Bool),
      augmentation_sharpen s0 s1 s2 X y 0 it cl r = (X, y))
    ∧ (∀ (s0 s1 s2 t0 t1 t2 : ℕ) (X y : Img) (it : ℚ) (cl : Bool) (rX rY : ℚ),
      augmentation_sharpen_xy s0 s1 s2 t0 t1 t2 X y 0 it cl r rX rY = (X, y))
    ∧ (∀ (s0 s1 s2 : ℕ) (X : Img) (y : Option Img) (mo : ℚ) (cl : Bool)
      (o1 o2 : ℚ) (cd : ℕ),
      augmentation_misalign s0 s1 s2 X y 0 mo cl r o1 o2 cd = (X, y))
    ∧ (∀ (s0 s1 s2 t0 t1 t2 : ℕ) (Xt yt Xs ys : Img) (mn mx : ℚ)
      (lm : ℕ) (fe : Bool) (fd : ℕ) (cl : Bool) (ph pw x0 y0 : ℕ),
      augmentation_cutmix s0 s1 s2 t0 t1 t2 Xt yt Xs ys 0 mn mx lm fe fd cl
        r ph pw x0 y0 = (Xt, yt))
    ∧ (∀ (Xt yt Xs ys : Img) (mn mx : ℚ) (lm : ℕ) (cl : Bool) (u : ℚ),
      augmentation_mixup Xt yt Xs ys mn mx lm 0 cl r u = (Xt, yt)) := by
  have hgt : r > 0 := h
  refine ⟨?_, ?_, ?_, ?_, ?_, ?_, ?_, ?_, ?_, ?_, ?_, ?_, ?_, ?_⟩ <;>
    intros <;>
    simp only [augmentation_rotation, augmentation_mirror, augmentation_noise,
      augmentation_channel_scale, augmentation_contrast, augmentation_drop_pixel,
      augmentation_drop_channel, augmentation_blur, augmentation_blur_xy,
      augmentation_sharpen, augmentation_sharpen_xy, augmentation_misalign,
      augmentation_cutmix, augmentation_mixup] <;>
    rw [if_pos] <;> try exact Or.inl hgt
  all_goals exact hgt

/-- Witness for C2 at the concrete gate draw `r = 1/2`. -/
theorem C2_witness :
    (0 : ℚ) < 1 / 2 ∧
    ((∀ (s0 s1 s2 t0 t1 t2 : ℕ) (X : Img) (y : Option Img) (k : Option ℕ)
      (cl : Bool) (rk : ℕ),
      augmentation_rotation s0 s1 s2 t0 t1 t2 X y 0 k cl (1 / 2) rk = (X, y))
    ∧ (∀ (s0 s1 s2 t0 t1 t2 : ℕ) (X : Img) (y : Option Img) (k : Option ℕ)
      (cl : Bool) (rk : ℕ),
      augmentation_mirror s0 s1 s2 t0 t1 t2 X y 0 k cl (1 / 2) rk = (X, y))
    ∧ (∀ (X : Img) (y : Option Img) (ma : ℚ) (ad cl : Bool) (ar : ℚ) (z : Img),
      augmentation_noise X y 0 ma ad cl (1 / 2) ar z = (X, y))
    ∧ (∀ (s0 s1 s2 : ℕ) (X : Img) (y : Option Img) (ma : ℚ) (ad cl : Bool)
      (ar : ℚ) (uc : ℕ → ℚ),
      augmentation_channel_scale s0 s1 s2 X y 0 ma ad cl (1 / 2) ar uc = (X, y))
    ∧ (∀ (s0 s1 s2 : ℕ) (X : Img) (y : Option Img) (ma : ℚ) (cl : Bool) (ar : ℚ),
      augmentation_contrast s0 s1 s2 X y 0 ma cl (1 / 2) ar = (X, y))
    ∧ (∀ (s0 s1 s2 : ℕ) (X : Img) (y : Option Img) (p dv : ℚ) (cl : Bool)
      (mask : Img),
      augmentation_drop_pixel s0 s1 s2 X y 0 p dv cl (1 / 2) mask = (X, y))
    ∧ (∀ (s0 s1 s2 : ℕ) (X : Img) (y : Option Img) (p dv : ℚ) (cl : Bool)
      (trials : List ℚ) (cd : ℕ),
      augmentation_drop_channel s0 s1 s2 X y 0 p dv cl (1 / 2) trials cd = (X, y))
    ∧ (∀ (s0 s1 s2 : ℕ) (X : Img) (y : Option Img) (it : ℚ) (cl : Bool),
      augmentation_blur s0 s1 s2 X y 0 it cl (1 / 2) = (X, y))
    ∧ (∀ (s0 s1 s2 t0 t1 t2 : ℕ) (X y : Img) (it : ℚ) (cl : Bool) (rX rY : ℚ),
      augmentation_blur_xy s0 s1 s2 t0 t1 t2 X y 0 it cl (1 / 2) rX rY = (X, y))
    ∧ (∀ (s0 s1 s2 : ℕ) (X : Img) (y : Option Img) (it : ℚ) (cl : Bool),
      augmentation_sharpen s0 s1 s2 X y 0 it cl (1 / 2) = (X, y))
    ∧ (∀ (s0 s1 s2 t0 t1 t2 : ℕ) (X y : Img) (it : ℚ) (cl : Bool) (rX rY : ℚ),
      augmentation_sharpen_xy s0 s1 s2 t0 t1 t2 X y 0 it cl (1 / 2) rX rY = (X, y))
    ∧ (∀ (s0 s1 s2 : ℕ) (X : Img) (y : Option Img) (mo : ℚ) (cl : Bool)
      (o1 o2 : ℚ) (cd : ℕ),
      augmentation_misalign s0 s1 s2 X y 0 mo cl (1 / 2) o1 o2 cd = (X, y))
    ∧ (∀ (s0 s1 s2 t0 t1 t2 : ℕ) (Xt yt Xs ys : Img) (mn mx : ℚ)
      (lm : ℕ) (fe : Bool) (fd : ℕ) (cl : Bool) (ph pw x0 y0 : ℕ),
      augmentation_cutmix s0 s1 s2 t0 t1 t2 Xt yt Xs ys 0 mn mx lm fe fd cl
        (1 / 2) ph pw x0 y0 = (Xt, yt))
    ∧ (∀ (Xt yt Xs ys : Img) (mn mx : ℚ) (lm : ℕ) (cl : Bool) (u : ℚ),
      augmentation_mixup Xt yt Xs ys mn mx lm 0 cl (1 / 2) u = (Xt, yt))) :=
  ⟨by norm_num, C2_chance_zero_noop (1 / 2) (by norm_num)⟩

/-- Counterexample for C2 as stated: at the RNG gate draw `r = 0` (a
possible value of `np.random.rand()`, which samples `[0,1)`), a transform
called with `chance = 0` is not a no-op: the gate test `0 > 0` fails and
the body runs, here changing a constant-10 mixup target to `14.995`. -/
theorem C2_counterexample :
    (augmentation_mixup (constImg 10) (constImg 10) (constImg 20) (constImg 20)
        (1 / 2) (1 / 2) 1 0 true 0 (1 / 2)).1 0 0 0 ≠ constImg 10 0 0 0 := by
  have hcoeff : mixupCoeff (1 / 2) (1 / 2) (1 / 2) = 1001 / 2000 := by
    unfold mixupCoeff
    rw [min_eq_left (by norm_num)]
    norm_num
  simp only [augmentation_mixup, fitToDtype, constImg, if_pos rfl,
    if_neg (by norm_num : ¬ (0 : ℚ) > 0)]
  rw [hcoeff]
  norm_num
